import Mathlib

/-!
Verification development for the survey application's statistics aggregator
and response-submission handler (`src/api/routes/responses.ts`).

The embedding is shallow:
* JavaScript numbers are modelled as exact rationals (`ℚ`).  The claims under
  study concern small decimal values, where IEEE-754 doubles are exact, so
  no rounding model is needed.
* `parseFloat` is modelled by `jsParseFloat`: skip leading whitespace, an
  optional sign, then the longest prefix of the form
  `digits [. digits] [e/E [sign] digits]` (also `. digits`); if no digits are
  consumed the result is `none` (JavaScript's `NaN`).  The `Infinity`
  literal form is not modelled; no claim below touches it.
* `Number.prototype.toString` is modelled by `jsNumToString`: shortest exact
  decimal form, integers without a decimal point.  Exponential notation for
  very large/small magnitudes is not modelled; no claim below touches it.
* JavaScript objects used as counters (`{ [key: string]: number }`) are
  modelled as association lists in insertion order; `bump` mirrors
  `m[k] = (m[k] || 0) + 1` (increment the first matching key, append a
  fresh key at the end).
* The database is modelled as lists of rows, and the POST handler as a pure
  state-transition function with explicit failure oracles for the two
  fallible inserts.
-/

set_option autoImplicit false

/-! ### JavaScript number model -/

/-- Whitespace characters skipped by `parseFloat` (common subset). -/
def isWS (c : Char) : Bool :=
  c = ' ' || c = '\t' || c = '\n' || c = '\r'

/-- Consume a maximal run of leading decimal digits, returning their values
and the remaining characters. -/
def takeDigits : List Char → List Nat × List Char
  | [] => ([], [])
  | c :: cs =>
    if c.isDigit then
      let (ds, rest) := takeDigits cs
      ((c.toNat - 48) :: ds, rest)
    else ([], c :: cs)

/-- Decimal digit list to the natural number it denotes. -/
def digitsToNat (ds : List Nat) : Nat :=
  ds.foldl (fun a d => 10 * a + d) 0

/-- Mantissa of a JS decimal literal: `digits [. digits]` or `. digits`;
`none` when no digit is consumed (this is `NaN`). -/
def parseMantissa (cs : List Char) : Option (ℚ × List Char) :=
  let (ip, r1) := takeDigits cs
  match r1 with
  | '.' :: r2 =>
    let (fp, r3) := takeDigits r2
    if ip.isEmpty && fp.isEmpty then none
    else some ((digitsToNat ip : ℚ) + (digitsToNat fp : ℚ) / (10 : ℚ) ^ fp.length, r3)
  | _ => if ip.isEmpty then none else some ((digitsToNat ip : ℚ), r1)

/-- Integer power of ten over `ℚ`. -/
def pow10 (e : Int) : ℚ :=
  match e with
  | .ofNat n => (10 : ℚ) ^ n
  | .negSucc n => 1 / (10 : ℚ) ^ (n + 1)

/-- Optional exponent part `e/E [sign] digits`; consumed only when complete
(`parseFloat` takes the longest valid prefix, so `"4e"` parses as `4`). -/
def parseExponent (cs : List Char) : Int :=
  match cs with
  | c :: rest =>
    if c = 'e' || c = 'E' then
      match rest with
      | '-' :: r2 =>
        let (ds, _) := takeDigits r2
        if ds.isEmpty then 0 else -(digitsToNat ds : Int)
      | '+' :: r2 =>
        let (ds, _) := takeDigits r2
        if ds.isEmpty then 0 else (digitsToNat ds : Int)
      | _ =>
        let (ds, _) := takeDigits rest
        if ds.isEmpty then 0 else (digitsToNat ds : Int)
    else 0
  | [] => 0

/-- Unsigned part of `parseFloat`: mantissa then optional exponent. -/
def parseUnsigned (cs : List Char) : Option ℚ :=
  match parseMantissa cs with
  | none => none
  | some (m, rest) => some (m * pow10 (parseExponent rest))

/-- Model of JavaScript `parseFloat`; `none` models `NaN`. -/
def jsParseFloat (s : String) : Option ℚ :=
  match s.data.dropWhile isWS with
  | '-' :: cs => (parseUnsigned cs).map (fun q => -q)
  | '+' :: cs => parseUnsigned cs
  | cs => parseUnsigned cs

/-- Least number of decimal places (up to 39) that writes `q` exactly. -/
def decExp (q : ℚ) : Nat :=
  ((List.range 40).find? (fun k => (q * pow10 (Int.ofNat k)).den == 1)).getD 39

/-- Left-pad a digit string with zeros to width `k`. -/
def padZeros (s : String) (k : Nat) : String :=
  String.mk (List.replicate (k - s.length) '0') ++ s

/-- `jsNumToString` on a nonnegative rational. -/
def jsNumToStringNN (q : ℚ) : String :=
  let k := decExp q
  let n := (q * pow10 (Int.ofNat k)).num.toNat
  if k = 0 then toString n
  else toString (n / 10 ^ k) ++ "." ++ padZeros (toString (n % 10 ^ k)) k

/-- Model of JavaScript `Number.prototype.toString`: shortest exact decimal,
integers without a decimal point (`(4 : ℚ)` renders as `"4"`). -/
def jsNumToString (q : ℚ) : String :=
  if q < 0 then "-" ++ jsNumToStringNN (-q) else jsNumToStringNN q

/-! ### Data model of the aggregator's input (`GET /survey/:surveyId/stats`)

The stats query selects, per question: `id, question_text, question_type,
options, answers(answer_text, answer_options)`. -/

/-- One answer row as fetched by the stats query: `answer_text` and
`answer_options` are both nullable columns. -/
structure Answer where
  answer_text : Option String
  answer_options : Option (List String)
deriving DecidableEq, Repr

/-- One question row together with its joined answers.  `options` holds the
question's defined option values (nullable column); the aggregator never
reads it. -/
structure Question where
  id : String
  question_text : String
  question_type : String
  options : Option (List String)
  answers : List Answer
deriving DecidableEq, Repr

/-- The per-question summary record built by `questionStats`.  Optional
fields model JSON keys that the handler adds only on some branches.
`text_responses` is declared by the consuming page (`SurveyStats.tsx`) but
the handler has no branch that writes it, so it is `none` on every path. -/
structure QuestionStat where
  id : String
  question_text : String
  question_type : String
  total_answers : Nat
  option_stats : Option (List (String × Nat))
  average_rating : Option ℚ
  rating_distribution : Option (List (String × Nat))
  text_responses : Option (List String)
deriving DecidableEq, Repr

/-- `m[k] = (m[k] || 0) + 1` on a JS object modelled as an assoc list:
increment the first entry with key `k`, or append `(k, 1)`. -/
def bump (m : List (String × Nat)) (k : String) : List (String × Nat) :=
  match m with
  | [] => [(k, 1)]
  | (k', v) :: rest => if k' = k then (k', v + 1) :: rest else (k', v) :: bump rest k

/-- Sum of a counter object's values. -/
def sumVals (m : List (String × Nat)) : Nat :=
  (m.map Prod.snd).sum

/-- Value stored under key `k` (0 when absent), i.e. `m[k] || 0` (first
matching entry; `bump` never creates a duplicate key). -/
def countKey : List (String × Nat) → String → Nat
  | [], _ => 0
  | (k', v) :: rest, k => if k' = k then v else countKey rest k

/-- Per-answer step of the choice branch: if `answer_options` is non-null,
bump a counter per listed value (the `forEach` body in the source). -/
def optionStep (acc : List (String × Nat)) (a : Answer) : List (String × Nat) :=
  match a.answer_options with
  | some opts => opts.foldl bump acc
  | none => acc

/-- The choice-branch accumulation (`optionCounts` in the source). -/
def optionCounts (answers : List Answer) : List (String × Nat) :=
  answers.foldl optionStep []

/-- `answer.answer_text || '0'`: JavaScript `||` replaces `undefined`,
`null` and the empty string (all falsy) by `'0'`. -/
def textOrZero (t : Option String) : String :=
  match t with
  | none => "0"
  | some s => if s = "" then "0" else s

/-- The rating-branch list of parsed ratings:
`answers.map(a => parseFloat(a.answer_text || '0')).filter(r => !isNaN(r))`. -/
def ratings (answers : List Answer) : List ℚ :=
  answers.filterMap (fun a => jsParseFloat (textOrZero a.answer_text))

/-- `ratings.reduce((sum, r) => sum + r, 0)`. -/
def qsum (rs : List ℚ) : ℚ :=
  rs.foldl (· + ·) 0

/-- `average_rating` value: sum divided by count (only used when the list is
nonempty, mirroring the `ratings.length > 0` guard). -/
def averageRating (rs : List ℚ) : ℚ :=
  qsum rs / (rs.length : ℚ)

/-- `rating_distribution`: bump the bucket keyed by `rating.toString()`. -/
def ratingDistribution (rs : List ℚ) : List (String × Nat) :=
  rs.foldl (fun d r => bump d (jsNumToString r)) []

/-- The `stats` object literal the handler builds first: identity fields and
`total_answers`, with no type-specific key yet. -/
def baseStat (q : Question) : QuestionStat :=
  { id := q.id
    question_text := q.question_text
    question_type := q.question_type
    total_answers := q.answers.length
    option_stats := none
    average_rating := none
    rating_distribution := none
    text_responses := none }

/-- The per-question summary computation (`questionStats` map body in the
stats handler). -/
def questionStat (q : Question) : QuestionStat :=
  if q.question_type = "single_choice" ∨ q.question_type = "multiple_choice" then
    { baseStat q with option_stats := some (optionCounts q.answers) }
  else if q.question_type = "rating" then
    if (ratings q.answers).length > 0 then
      { baseStat q with
          average_rating := some (averageRating (ratings q.answers))
          rating_distribution := some (ratingDistribution (ratings q.answers)) }
    else baseStat q
  else baseStat q

/-- The whole per-question statistics list. -/
def questionStatsList (qs : List Question) : List QuestionStat :=
  qs.map questionStat

/-! ### Definitions following the spec's words (for refinement comparison)

These two definitions are NOT translations of the source; they render §4's
stated rating policy ("computed only over answers whose text parses as a
finite decimal number; non-numeric or empty values are excluded from both
the count and the average, not treated as zero") so that it can be compared
against the code's behaviour. -/

/-- Spec's notion of a rating answer with a parseable numeric value: the
answer_text is present, non-empty, and parses as a decimal number. -/
def specParseableAnswer (a : Answer) : Bool :=
  match a.answer_text with
  | none => false
  | some s => !(s == "") && (jsParseFloat s).isSome

/-- Spec's notion of the average rating: the arithmetic mean over exactly
the parseable answers (absent when there are none). -/
def specAverageRating (answers : List Answer) : Option ℚ :=
  let vs := (answers.filter specParseableAnswer).filterMap
    (fun a => jsParseFloat (a.answer_text.getD ""))
  if vs.length > 0 then some (qsum vs / (vs.length : ℚ)) else none

/-! ### The POST /api/responses handler

Rows of the four tables touched by the handler, and the handler itself as a
pure state-transition function.  The two Supabase inserts can fail for
external reasons; their outcomes are passed in as the booleans
`responseInsertFails` and `answersInsertFails`, and the id the database
would assign to the new response row is passed in as `newResponseId`.
Error payloads are abbreviated English forms of the source's messages. -/

/-- A `surveys` row (the columns the handler selects). -/
structure SurveyRow where
  id : String
  status : String
  title : String
deriving DecidableEq, Repr

/-- A `questions` row.  The handler's query selects only
`id, is_required, question_text`; `options` (the defined option values) is
carried here to let the option-subset invariant be stated, and the handler
never reads it. -/
structure QuestionRow where
  id : String
  survey_id : String
  is_required : Bool
  question_text : String
  options : List String
deriving DecidableEq, Repr

/-- One element of the request's `answers` array (after `answerSchema`:
`question_id` a string, `answer_text` an optional string, `answer_options`
an optional array of strings — with no check against the question's
defined options). -/
structure AnswerInput where
  question_id : String
  answer_text : Option String
  answer_options : Option (List String)
deriving DecidableEq, Repr

/-- A `responses` row. -/
structure ResponseRow where
  id : String
  survey_id : String
  respondent_email : Option String
  respondent_name : Option String
deriving DecidableEq, Repr

/-- An `answers` row. -/
structure AnswerRow where
  response_id : String
  question_id : String
  answer_text : Option String
  answer_options : Option (List String)
deriving DecidableEq, Repr

/-- The database tables the handler touches. -/
structure DB where
  surveys : List SurveyRow
  questions : List QuestionRow
  responses : List ResponseRow
  answers : List AnswerRow
deriving DecidableEq, Repr

/-- HTTP outcome of the POST handler. -/
inductive PostResult where
  | created (response_id : String)
  | notFound (msg : String)
  | badRequest (msg : String)
  | serverError (msg : String)
deriving DecidableEq, Repr

/-- The POST `/api/responses` handler: schema check (`min(1)` on answers;
uuid/email shape checks are absorbed by the types), survey lookup and
published check, required-question check, question-membership check, then
the response insert followed by the answers insert with delete-on-failure
compensation.  The failed-answers branch returns the composite effect of
the source's insert-then-delete: the appended response row filtered back
out by id. -/
def postResponse (db : DB) (survey_id : String)
    (respondent_email respondent_name : Option String)
    (answers : List AnswerInput) (newResponseId : String)
    (responseInsertFails answersInsertFails : Bool) : DB × PostResult :=
  if answers.isEmpty then (db, .badRequest "at least one answer required")
  else
    match db.surveys.find? (fun s => s.id == survey_id) with
    | none => (db, .notFound "survey not found")
    | some survey =>
      if survey.status != "published" then (db, .badRequest "survey not published")
      else
        match ((db.questions.filter (fun q => q.survey_id == survey_id)).filter
            (fun q => q.is_required)).find?
            (fun q => !((answers.map (fun a => a.question_id)).contains q.id)) with
        | some _ => (db, .badRequest "required question unanswered")
        | none =>
          if answers.any (fun a =>
              !(((db.questions.filter (fun q => q.survey_id == survey_id)).map
                (fun q => q.id)).contains a.question_id)) then
            (db, .badRequest "invalid question id")
          else if responseInsertFails then (db, .serverError "failed to create response")
          else if answersInsertFails then
            ({ db with
                responses := (db.responses ++
                    [({ id := newResponseId, survey_id := survey_id,
                        respondent_email := respondent_email,
                        respondent_name := respondent_name } : ResponseRow)]).filter
                  (fun r => r.id != newResponseId) },
              .serverError "failed to save answers")
          else
            ({ db with
                responses := db.responses ++
                  [⟨newResponseId, survey_id, respondent_email, respondent_name⟩],
                answers := db.answers ++
                  answers.map (fun a =>
                    ⟨newResponseId, a.question_id, a.answer_text, a.answer_options⟩) },
              .created newResponseId)

-- evaluation checks of the number model and the two accumulators
example : jsParseFloat "4" = some 4 := by with_unfolding_all decide
example : jsParseFloat "4.0" = some 4 := by with_unfolding_all decide
example : jsParseFloat "" = none := by with_unfolding_all decide
example : jsParseFloat "abc" = none := by with_unfolding_all decide
example : jsParseFloat "0" = some 0 := by with_unfolding_all decide
example : jsParseFloat "2.5" = some (5/2) := by with_unfolding_all decide
example : jsParseFloat "-3.25" = some (-13/4) := by with_unfolding_all decide
example : jsParseFloat " 4e2x" = some 400 := by with_unfolding_all decide
example : jsParseFloat ".5" = some (1/2) := by with_unfolding_all decide
example : jsParseFloat "4." = some 4 := by with_unfolding_all decide
example : jsParseFloat "4e" = some 4 := by with_unfolding_all decide
example : jsNumToString 4 = "4" := by with_unfolding_all decide
example : jsNumToString (5/2) = "2.5" := by with_unfolding_all decide
example : jsNumToString (-13/4) = "-3.25" := by with_unfolding_all decide
example : jsNumToString (81/20) = "4.05" := by with_unfolding_all decide
example : ratings [⟨some "5", none⟩, ⟨some "", none⟩] = [5, 0] := by
  with_unfolding_all decide
example : ratings [⟨some "abc", none⟩, ⟨none, none⟩] = [0] := by
  with_unfolding_all decide
example : optionCounts [⟨none, some ["a", "b"]⟩, ⟨none, some ["a"]⟩, ⟨none, none⟩]
    = [("a", 2), ("b", 1)] := by with_unfolding_all decide

/-! ### Helper lemmas about the counter objects -/

theorem sumVals_nil : sumVals [] = 0 := rfl

theorem sumVals_cons (p : String × Nat) (m : List (String × Nat)) :
    sumVals (p :: m) = p.2 + sumVals m := by
  simp [sumVals]

theorem sumVals_bump (m : List (String × Nat)) (k : String) :
    sumVals (bump m k) = sumVals m + 1 := by
  induction m with
  | nil => simp [bump, sumVals]
  | cons p rest ih =>
    obtain ⟨k', v⟩ := p
    by_cases h : k' = k
    · simp [bump, h, sumVals_cons]
      omega
    · simp [bump, h, sumVals_cons, ih]
      omega

theorem countKey_bump (m : List (String × Nat)) (k' k : String) :
    countKey (bump m k') k = countKey m k + (if k' = k then 1 else 0) := by
  induction m with
  | nil => by_cases h : k' = k <;> simp [bump, countKey, h]
  | cons p rest ih =>
    obtain ⟨a, v⟩ := p
    by_cases h1 : a = k'
    · subst h1
      by_cases h2 : a = k <;> simp [bump, countKey, h2]
    · by_cases h2 : a = k
      · subst h2
        have hne : ¬ a = k' := h1
        simp [bump, hne, countKey]
        intro h; exact absurd h.symm h1
      · simp [bump, h1, countKey, h2, ih]

theorem sumVals_foldl_bump (keys : List String) (m : List (String × Nat)) :
    sumVals (keys.foldl bump m) = sumVals m + keys.length := by
  induction keys generalizing m with
  | nil => simp
  | cons k ks ih =>
    simp only [List.foldl_cons, ih, sumVals_bump, List.length_cons]
    omega

theorem countKey_foldl_bump (keys : List String) (m : List (String × Nat)) (k : String) :
    countKey (keys.foldl bump m) k = countKey m k + keys.count k := by
  induction keys generalizing m with
  | nil => simp
  | cons k' ks ih =>
    simp only [List.foldl_cons, ih, countKey_bump, List.count_cons]
    by_cases h : k' = k
    · simp [h]
      omega
    · have : ¬ (k' == k) := by simpa using h
      simp [h, this]

theorem sumVals_foldl_optionStep (answers : List Answer) (m : List (String × Nat)) :
    sumVals (answers.foldl optionStep m)
      = sumVals m + (answers.map (fun a => (a.answer_options.getD []).length)).sum := by
  induction answers generalizing m with
  | nil => simp
  | cons a rest ih =>
    cases hopt : a.answer_options with
    | none => simp [List.foldl_cons, optionStep, hopt, ih]
    | some opts =>
      simp only [List.foldl_cons, optionStep, hopt, ih, sumVals_foldl_bump,
        List.map_cons, List.sum_cons, Option.getD_some]
      omega

theorem countKey_foldl_optionStep (answers : List Answer) (m : List (String × Nat))
    (v : String) :
    countKey (answers.foldl optionStep m) v
      = countKey m v + (answers.map (fun a => (a.answer_options.getD []).count v)).sum := by
  induction answers generalizing m with
  | nil => simp
  | cons a rest ih =>
    cases hopt : a.answer_options with
    | none => simp [List.foldl_cons, optionStep, hopt, ih]
    | some opts =>
      simp only [List.foldl_cons, optionStep, hopt, ih, countKey_foldl_bump,
        List.map_cons, List.sum_cons, Option.getD_some]
      omega

theorem sumVals_optionCounts (answers : List Answer) :
    sumVals (optionCounts answers)
      = (answers.map (fun a => (a.answer_options.getD []).length)).sum := by
  simpa [optionCounts, sumVals_nil] using sumVals_foldl_optionStep answers []

theorem countKey_optionCounts (answers : List Answer) (v : String) :
    countKey (optionCounts answers) v
      = (answers.map (fun a => (a.answer_options.getD []).count v)).sum := by
  simpa [optionCounts, countKey] using countKey_foldl_optionStep answers [] v

theorem ratingDistribution_eq_foldl_bump (rs : List ℚ) :
    ratingDistribution rs = (rs.map jsNumToString).foldl bump [] := by
  simp [ratingDistribution, List.foldl_map]

theorem sumVals_ratingDistribution (rs : List ℚ) :
    sumVals (ratingDistribution rs) = rs.length := by
  simp [ratingDistribution_eq_foldl_bump, sumVals_foldl_bump, sumVals_nil]

theorem countKey_ratingDistribution (rs : List ℚ) (k : String) :
    countKey (ratingDistribution rs) k = (rs.map jsNumToString).count k := by
  simp [ratingDistribution_eq_foldl_bump, countKey_foldl_bump, countKey]

/-! ### Helper lemmas about the rating parse -/

theorem jsParseFloat_zero_lit : jsParseFloat "0" = some 0 := by
  with_unfolding_all decide

theorem ratings_length_le (answers : List Answer) :
    (ratings answers).length ≤ answers.length :=
  List.length_filterMap_le _ _

theorem ratings_cons_empty (a : Answer) (rest : List Answer)
    (h : a.answer_text = none ∨ a.answer_text = some "") :
    ratings (a :: rest) = 0 :: ratings rest := by
  rcases h with h | h <;>
    simp [ratings, List.filterMap_cons, textOrZero, h, jsParseFloat_zero_lit]

theorem ratings_cons_unparseable (a : Answer) (s : String) (rest : List Answer)
    (ht : a.answer_text = some s) (hne : s ≠ "") (hp : jsParseFloat s = none) :
    ratings (a :: rest) = ratings rest := by
  simp [ratings, List.filterMap_cons, textOrZero, ht, hne, hp]

theorem ratings_cons_parsed (a : Answer) (s : String) (q : ℚ) (rest : List Answer)
    (ht : a.answer_text = some s) (hne : s ≠ "") (hp : jsParseFloat s = some q) :
    ratings (a :: rest) = q :: ratings rest := by
  simp [ratings, List.filterMap_cons, textOrZero, ht, hne, hp]

/-! ### Branch lemmas for `questionStat` -/

theorem questionStat_choice (q : Question)
    (h : q.question_type = "single_choice" ∨ q.question_type = "multiple_choice") :
    questionStat q = { baseStat q with option_stats := some (optionCounts q.answers) } := by
  unfold questionStat
  rw [if_pos h]

theorem questionStat_rating_pos (q : Question) (htype : q.question_type = "rating")
    (hne : ratings q.answers ≠ []) :
    questionStat q =
      { baseStat q with
          average_rating := some (averageRating (ratings q.answers))
          rating_distribution := some (ratingDistribution (ratings q.answers)) } := by
  unfold questionStat
  rw [if_neg (by simp [htype]), if_pos htype, if_pos (List.length_pos.mpr hne)]

theorem questionStat_rating_empty (q : Question) (htype : q.question_type = "rating")
    (he : ratings q.answers = []) :
    questionStat q = baseStat q := by
  unfold questionStat
  rw [if_neg (by simp [htype]), if_pos htype]
  simp [he]

theorem questionStat_total_answers (q : Question) :
    (questionStat q).total_answers = q.answers.length := by
  unfold questionStat
  split_ifs <;> rfl

theorem questionStat_text_responses (q : Question) :
    (questionStat q).text_responses = none := by
  unfold questionStat
  split_ifs <;> rfl

/-! ### Further helpers -/

theorem sum_map_one {α : Type} (l : List α) (f : α → Nat) (h : ∀ a ∈ l, f a = 1) :
    (l.map f).sum = l.length := by
  induction l with
  | nil => rfl
  | cons a rest ih =>
    simp only [List.map_cons, List.sum_cons, List.length_cons,
      h a (List.mem_cons_self a rest), ih (fun b hb => h b (List.mem_cons_of_mem a hb))]
    omega

/-! ### Claims -/

/-- C1: the spec says every text/textarea question's summary carries a
`text_responses` field with the ordered non-empty answer texts.  The
`questionStats` computation has no branch for text questions at all, so no
summary ever contains a `text_responses` key: the first conjunct shows the
field is `none` for every question, the second evaluates the full summary at
a text question with two non-empty answers. -/
theorem c1_no_text_responses :
    (∀ q : Question, (questionStat q).text_responses = none) ∧
    questionStat ⟨"q2", "Any comments?", "text", none,
        [⟨some "hello", none⟩, ⟨some "world", none⟩]⟩
      = ⟨"q2", "Any comments?", "text", 2, none, none, none, none⟩ :=
  ⟨questionStat_text_responses, by with_unfolding_all decide⟩

/-- C9: a question with zero answers has `total_answers = 0`; a choice-type
question gets an empty `option_stats` mapping, and a rating question's
summary carries neither `average_rating` nor `rating_distribution`. -/
theorem c9_zero_answers (q : Question) (h : q.answers = []) :
    (questionStat q).total_answers = 0 ∧
    ((q.question_type = "single_choice" ∨ q.question_type = "multiple_choice") →
      (questionStat q).option_stats = some []) ∧
    (q.question_type = "rating" →
      (questionStat q).average_rating = none ∧
      (questionStat q).rating_distribution = none) := by
  refine ⟨?_, ?_, ?_⟩
  · rw [questionStat_total_answers, h]; rfl
  · intro htype
    rw [questionStat_choice q htype]
    simp [optionCounts, h]
  · intro htype
    have he : ratings q.answers = [] := by rw [h]; rfl
    rw [questionStat_rating_empty q htype he]
    exact ⟨rfl, rfl⟩

/-- Witness for C9 at a concrete zero-answer choice question and a concrete
zero-answer rating question. -/
theorem c9_zero_answers_witness :
    (questionStat ⟨"q1", "Pick", "single_choice", some ["a", "b"], []⟩).option_stats
      = some [] ∧
    (questionStat ⟨"q2", "Rate", "rating", none, []⟩).average_rating = none ∧
    (questionStat ⟨"q2", "Rate", "rating", none, []⟩).total_answers = 0 :=
  ⟨(c9_zero_answers _ rfl).2.1 (Or.inl rfl), ((c9_zero_answers _ rfl).2.2 rfl).1,
    (c9_zero_answers _ rfl).1⟩

/-- C6: for a multiple_choice question where every answer selects exactly
one option, the option tallies sum to `total_answers`, which is the number
of answers. -/
theorem c6_single_selection_tallies (q : Question)
    (htype : q.question_type = "multiple_choice")
    (hone : ∀ a ∈ q.answers, (a.answer_options.getD []).length = 1) :
    ∃ m, (questionStat q).option_stats = some m ∧
      sumVals m = (questionStat q).total_answers ∧
      (questionStat q).total_answers = q.answers.length := by
  refine ⟨optionCounts q.answers, ?_, ?_, questionStat_total_answers q⟩
  · rw [questionStat_choice q (Or.inr htype)]
  · rw [questionStat_total_answers, sumVals_optionCounts, sum_map_one _ _ hone]

/-- Witness for C6: three single-selection answers, tallies sum to 3. -/
theorem c6_single_selection_tallies_witness :
    ∃ m, (questionStat ⟨"q1", "Pick any", "multiple_choice", some ["a", "b"],
        [⟨none, some ["a"]⟩, ⟨none, some ["b"]⟩, ⟨none, some ["a"]⟩]⟩).option_stats
        = some m ∧ sumVals m = 3 := by
  obtain ⟨m, hm, hs, ht⟩ := c6_single_selection_tallies
    ⟨"q1", "Pick any", "multiple_choice", some ["a", "b"],
      [⟨none, some ["a"]⟩, ⟨none, some ["b"]⟩, ⟨none, some ["a"]⟩]⟩ rfl (by decide)
  exact ⟨m, hm, by rw [hs, ht]; rfl⟩

/-- C7: for a choice question, the tally stored under any value `v` is the
total number of occurrences of `v` across the answers' selected-option
lists — an expression that never consults the question's defined `options`
list, so unrecognized values are tallied as-is under their literal value. -/
theorem c7_unknown_option_values_tallied (q : Question)
    (htype : q.question_type = "single_choice" ∨ q.question_type = "multiple_choice") :
    ∃ m, (questionStat q).option_stats = some m ∧
      ∀ v : String,
        countKey m v = (q.answers.map (fun a => (a.answer_options.getD []).count v)).sum :=
  ⟨optionCounts q.answers, by rw [questionStat_choice q htype],
    fun v => countKey_optionCounts q.answers v⟩

/-- Witness for C7: value "z" with defined options ["a","b"] is tallied with
count 1. -/
theorem c7_unknown_option_values_tallied_witness :
    ∃ m, (questionStat ⟨"q1", "Pick", "single_choice", some ["a", "b"],
        [⟨none, some ["z"]⟩]⟩).option_stats = some m ∧
      countKey m "z" = 1 ∧ ¬ ("z" ∈ (["a", "b"] : List String)) := by
  obtain ⟨m, hm, hv⟩ := c7_unknown_option_values_tallied
    ⟨"q1", "Pick", "single_choice", some ["a", "b"], [⟨none, some ["z"]⟩]⟩ (Or.inl rfl)
  refine ⟨m, hm, ?_, by decide⟩
  rw [hv "z"]; decide

/-- C8: a choice-type answer whose `answer_options` is null is counted by
`total_answers` but contributes to no option tally: `option_stats` equals
the tally of the remaining answers. -/
theorem c8_null_options_counted_not_tallied (q : Question) (as1 as2 : List Answer)
    (a : Answer)
    (htype : q.question_type = "single_choice" ∨ q.question_type = "multiple_choice")
    (hans : q.answers = as1 ++ a :: as2) (hopt : a.answer_options = none) :
    (questionStat q).total_answers = (as1 ++ as2).length + 1 ∧
    (questionStat q).option_stats = some (optionCounts (as1 ++ as2)) := by
  constructor
  · rw [questionStat_total_answers, hans]
    simp [List.length_append]
    omega
  · rw [questionStat_choice q htype, hans]
    have : optionCounts (as1 ++ a :: as2) = optionCounts (as1 ++ as2) := by
      simp [optionCounts, List.foldl_append, List.foldl_cons, optionStep, hopt]
    rw [this]

/-- Witness for C8: an answer with null options raises `total_answers` to 2
while `option_stats` is that of the other answer alone. -/
theorem c8_null_options_counted_not_tallied_witness :
    (questionStat ⟨"q1", "Pick", "single_choice", some ["a"],
        [⟨none, some ["a"]⟩, ⟨some "x", none⟩]⟩).total_answers = 2 ∧
    (questionStat ⟨"q1", "Pick", "single_choice", some ["a"],
        [⟨none, some ["a"]⟩, ⟨some "x", none⟩]⟩).option_stats
      = some (optionCounts [⟨none, some ["a"]⟩]) := by
  have h := c8_null_options_counted_not_tallied
    ⟨"q1", "Pick", "single_choice", some ["a"], [⟨none, some ["a"]⟩, ⟨some "x", none⟩]⟩
    [⟨none, some ["a"]⟩] [] ⟨some "x", none⟩ (Or.inl rfl) rfl rfl
  exact ⟨by simpa using h.1, by simpa using h.2⟩

/-! ### Rating claims -/

theorem jsParseFloat_four : jsParseFloat "4" = some 4 := by
  with_unfolding_all decide

theorem jsParseFloat_four_dot_zero : jsParseFloat "4.0" = some 4 := by
  with_unfolding_all decide

theorem ratings_map_text (answers : List Answer) :
    ratings answers
      = (answers.map Answer.answer_text).filterMap (fun t => jsParseFloat (textOrZero t)) := by
  rw [List.filterMap_map]
  rfl

/-- C5: `rating_distribution` buckets are keyed by the canonical string form
of the parsed value: the bucket count at key `k` counts the ratings whose
`jsNumToString` form is `k`, and concretely the answers "4" and "4.0" both
parse to 4 and land in the single bucket keyed "4" with count 2. -/
theorem c5_canonical_distribution_keys :
    (∀ (rs : List ℚ) (k : String),
        countKey (ratingDistribution rs) k = (rs.map jsNumToString).count k) ∧
    (∀ q : Question, q.question_type = "rating" →
        q.answers.map Answer.answer_text = [some "4", some "4.0"] →
        (questionStat q).rating_distribution = some [("4", 2)]) := by
  refine ⟨countKey_ratingDistribution, ?_⟩
  intro q htype hmap
  have hr : ratings q.answers = [4, 4] := by
    rw [ratings_map_text, hmap]
    simp [List.filterMap_cons, textOrZero, jsParseFloat_four, jsParseFloat_four_dot_zero]
  have h2 := questionStat_rating_pos q htype (by rw [hr]; simp)
  rw [h2, hr]
  show some (ratingDistribution [4, 4]) = some [("4", 2)]
  with_unfolding_all decide

/-- Witness for C5 at a concrete rating question with answers "4" and
"4.0". -/
theorem c5_canonical_distribution_keys_witness :
    countKey (ratingDistribution [4]) "4" = ([(4 : ℚ)].map jsNumToString).count "4" ∧
    (questionStat ⟨"q1", "Rate", "rating", none,
        [⟨some "4", none⟩, ⟨some "4.0", none⟩]⟩).rating_distribution = some [("4", 2)] :=
  ⟨c5_canonical_distribution_keys.1 [4] "4",
    c5_canonical_distribution_keys.2
      ⟨"q1", "Rate", "rating", none, [⟨some "4", none⟩, ⟨some "4.0", none⟩]⟩ rfl rfl⟩

/-- C2 counterexample: for the rating answers "5" and "", the code computes
`average_rating = 5/2` — the empty `answer_text` is defaulted to `'0'` by
`answer_text || '0'` and included as the value zero — while the spec's
stated policy (exclude missing/empty from count and average) yields 5. -/
theorem c2_empty_text_counted_as_zero :
    (questionStat ⟨"q1", "Rate", "rating", none,
        [⟨some "5", none⟩, ⟨some "", none⟩]⟩).average_rating = some (5 / 2) ∧
    specAverageRating [⟨some "5", none⟩, ⟨some "", none⟩] = some 5 ∧
    ((5 : ℚ) / 2) ≠ 5 := by
  refine ⟨?_, ?_, ?_⟩ <;> with_unfolding_all decide

/-- C2 amended: `average_rating` is the arithmetic mean over the answers
whose `answer_text`, with missing or empty text defaulted to "0", parses via
`parseFloat`: a missing or empty `answer_text` is included as the value 0,
and only non-empty text that does not parse at all is excluded from both the
count and the average. -/
theorem c2_rating_parse_policy :
    (∀ (a : Answer) (rest : List Answer),
        (a.answer_text = none ∨ a.answer_text = some "") →
        ratings (a :: rest) = 0 :: ratings rest) ∧
    (∀ (a : Answer) (s : String) (rest : List Answer),
        a.answer_text = some s → s ≠ "" → jsParseFloat s = none →
        ratings (a :: rest) = ratings rest) ∧
    (∀ q : Question, q.question_type = "rating" → ratings q.answers ≠ [] →
        (questionStat q).average_rating
          = some (qsum (ratings q.answers) / ((ratings q.answers).length : ℚ))) := by
  refine ⟨ratings_cons_empty, ratings_cons_unparseable, ?_⟩
  intro q htype hne
  rw [questionStat_rating_pos q htype hne]
  rfl

/-- Witness for C2 amended: an empty text contributes 0, "abc" is excluded,
and a question with ratings 2 and 4 averages to 3. -/
theorem c2_rating_parse_policy_witness :
    ratings [(⟨some "", none⟩ : Answer)] = [0] ∧
    ratings [(⟨some "abc", none⟩ : Answer)] = [] ∧
    (questionStat ⟨"q1", "Rate", "rating", none,
        [⟨some "2", none⟩, ⟨some "4", none⟩]⟩).average_rating = some 3 := by
  refine ⟨?_, ?_, ?_⟩
  · simpa using c2_rating_parse_policy.1 ⟨some "", none⟩ [] (Or.inr rfl)
  · simpa using c2_rating_parse_policy.2.1 ⟨some "abc", none⟩ "abc" [] rfl (by decide)
      (by with_unfolding_all decide)
  · rw [c2_rating_parse_policy.2.2 ⟨"q1", "Rate", "rating", none,
        [⟨some "2", none⟩, ⟨some "4", none⟩]⟩ rfl (by with_unfolding_all decide)]
    with_unfolding_all decide

/-- C3 counterexample: for the single rating answer with empty text, the
distribution is `{"0": 1}` and sums to 1, while the count of answers with a
parseable numeric value in the spec's sense (missing/empty excluded) is 0 —
so the stated sum identity fails. -/
theorem c3_distribution_counts_unparseable :
    (questionStat ⟨"q1", "Rate", "rating", none,
        [⟨some "", none⟩]⟩).rating_distribution = some [("0", 1)] ∧
    (([(⟨some "", none⟩ : Answer)]).filter specParseableAnswer).length = 0 ∧
    sumVals [("0", 1)]
      ≠ (([(⟨some "", none⟩ : Answer)]).filter specParseableAnswer).length := by
  refine ⟨?_, ?_, ?_⟩ <;> with_unfolding_all decide

/-- C3 amended: `rating_distribution` values sum to the number of answers
whose text, with missing/empty defaulted to "0", parses via `parseFloat`
(the length of `ratings`); that count is at most `total_answers`; and
`average_rating` is the sum of those parsed values divided by that same
count. -/
theorem c3_distribution_sum_and_average (q : Question)
    (htype : q.question_type = "rating") (hne : ratings q.answers ≠ []) :
    ∃ d, (questionStat q).rating_distribution = some d ∧
      sumVals d = (ratings q.answers).length ∧
      (ratings q.answers).length ≤ (questionStat q).total_answers ∧
      (questionStat q).average_rating
        = some (qsum (ratings q.answers) / ((ratings q.answers).length : ℚ)) := by
  refine ⟨ratingDistribution (ratings q.answers), ?_, sumVals_ratingDistribution _, ?_, ?_⟩
  · rw [questionStat_rating_pos q htype hne]
  · rw [questionStat_total_answers]
    exact ratings_length_le q.answers
  · rw [questionStat_rating_pos q htype hne]
    rfl

/-- Witness for C3 amended: answers "4", "4.0", "abc" yield a distribution
summing to 2 (the two parseable answers) out of 3 total answers. -/
theorem c3_distribution_sum_and_average_witness :
    ∃ d, (questionStat ⟨"q1", "Rate", "rating", none,
        [⟨some "4", none⟩, ⟨some "4.0", none⟩, ⟨some "abc", none⟩]⟩).rating_distribution
        = some d ∧ sumVals d = 2 := by
  obtain ⟨d, hd, hs, hle, hav⟩ := c3_distribution_sum_and_average
    ⟨"q1", "Rate", "rating", none,
      [⟨some "4", none⟩, ⟨some "4.0", none⟩, ⟨some "abc", none⟩]⟩ rfl
    (by with_unfolding_all decide)
  refine ⟨d, hd, ?_⟩
  rw [hs]
  with_unfolding_all decide

/-! ### POST handler claims -/

/-- Case analysis of `postResponse`: either the request is rejected (or the
response insert fails) with the database untouched and no created result;
or the answers insert fails and the final state is the appended response
row filtered back out; or everything succeeds and both rows are appended.
In the two reaching-the-insert cases the question-membership check has
passed. -/
theorem postResponse_spec (db : DB) (sid : String) (email name : Option String)
    (ans : List AnswerInput) (rid : String) (f1 f2 : Bool) :
    (∃ r, postResponse db sid email name ans rid f1 f2 = (db, r) ∧
        ∀ x, r ≠ PostResult.created x)
    ∨ (f2 = true ∧
        ans.any (fun a =>
          !(((db.questions.filter (fun q => q.survey_id == sid)).map
            (fun q => q.id)).contains a.question_id)) = false ∧
        postResponse db sid email name ans rid f1 f2
          = ({ db with
                responses := (db.responses ++
                    [({ id := rid, survey_id := sid, respondent_email := email,
                        respondent_name := name } : ResponseRow)]).filter
                  (fun r => r.id != rid) },
              PostResult.serverError "failed to save answers"))
    ∨ (f2 = false ∧
        ans.any (fun a =>
          !(((db.questions.filter (fun q => q.survey_id == sid)).map
            (fun q => q.id)).contains a.question_id)) = false ∧
        postResponse db sid email name ans rid f1 f2
          = ({ db with
                responses := db.responses ++ [⟨rid, sid, email, name⟩],
                answers := db.answers ++ ans.map (fun a =>
                  ⟨rid, a.question_id, a.answer_text, a.answer_options⟩) },
              PostResult.created rid)) := by
  unfold postResponse
  split
  · exact Or.inl ⟨_, rfl, fun x h => nomatch h⟩
  split
  · exact Or.inl ⟨_, rfl, fun x h => nomatch h⟩
  split
  · exact Or.inl ⟨_, rfl, fun x h => nomatch h⟩
  split
  · exact Or.inl ⟨_, rfl, fun x h => nomatch h⟩
  split
  · exact Or.inl ⟨_, rfl, fun x h => nomatch h⟩
  next hany =>
    split
    · exact Or.inl ⟨_, rfl, fun x h => nomatch h⟩
    split
    · next hf2 => exact Or.inr (Or.inl ⟨hf2, by simpa using hany, rfl⟩)
    · next hf2 =>
        exact Or.inr (Or.inr ⟨by simpa using hf2, by simpa using hany, rfl⟩)

/-- C10: if the answers insert fails (after the response row was created),
the handler deletes the created response row and returns an error: provided
the new response id is fresh, the final database equals the initial one, and
the result is not `created` — no response row survives without its
answers. -/
theorem c10_submission_atomicity (db : DB) (sid : String) (email name : Option String)
    (ans : List AnswerInput) (rid : String)
    (hfresh : ∀ r ∈ db.responses, r.id ≠ rid) :
    (postResponse db sid email name ans rid false true).1 = db ∧
    ∀ x, (postResponse db sid email name ans rid false true).2 ≠ PostResult.created x := by
  rcases postResponse_spec db sid email name ans rid false true with
    ⟨r, heq, hnc⟩ | ⟨_, _, heq⟩ | ⟨hf2, _, _⟩
  · rw [heq]
    exact ⟨rfl, hnc⟩
  · have hfilter : (db.responses ++
        [({ id := rid, survey_id := sid, respondent_email := email,
            respondent_name := name } : ResponseRow)]).filter
          (fun r => r.id != rid) = db.responses := by
      rw [List.filter_append]
      have h1 : db.responses.filter (fun r => r.id != rid) = db.responses :=
        List.filter_eq_self.mpr (fun r hr => by simpa using hfresh r hr)
      have h2 : ([({ id := rid, survey_id := sid, respondent_email := email,
                     respondent_name := name } : ResponseRow)]).filter
            (fun r => r.id != rid) = [] := by simp
      rw [h1, h2, List.append_nil]
    rw [heq, hfilter]
    exact ⟨rfl, fun x h => nomatch h⟩
  · exact Bool.noConfusion hf2

/-- Witness for C10: a concrete database with one existing response; the
failed submission leaves it unchanged. -/
theorem c10_submission_atomicity_witness :
    (postResponse ⟨[⟨"s1", "published", "T"⟩], [⟨"q1", "s1", false, "Q", []⟩],
        [⟨"r0", "s1", none, none⟩], []⟩ "s1" none none
        [⟨"q1", some "hi", none⟩] "r1" false true).1
      = ⟨[⟨"s1", "published", "T"⟩], [⟨"q1", "s1", false, "Q", []⟩],
        [⟨"r0", "s1", none, none⟩], []⟩ ∧
    (postResponse ⟨[⟨"s1", "published", "T"⟩], [⟨"q1", "s1", false, "Q", []⟩],
        [⟨"r0", "s1", none, none⟩], []⟩ "s1" none none
        [⟨"q1", some "hi", none⟩] "r1" false true).2 ≠ PostResult.created "r1" := by
  have h := c10_submission_atomicity
    ⟨[⟨"s1", "published", "T"⟩], [⟨"q1", "s1", false, "Q", []⟩],
      [⟨"r0", "s1", none, none⟩], []⟩ "s1" none none
    [⟨"q1", some "hi", none⟩] "r1" (by decide)
  exact ⟨h.1, h.2 "r1"⟩

/-- C4 counterexample: a submission whose answer selects the option value
"z", which is not among the question's defined options ["a","b"], is
accepted (`created`) and the answer row is stored with "z" as-is — the
handler never validates selected option values against the question's
defined option list. -/
theorem c4_option_subset_not_enforced :
    (postResponse ⟨[⟨"s1", "published", "T"⟩], [⟨"q1", "s1", false, "Pick", ["a", "b"]⟩],
        [], []⟩ "s1" none none [⟨"q1", none, some ["z"]⟩] "r1" false false).2
      = PostResult.created "r1" ∧
    (postResponse ⟨[⟨"s1", "published", "T"⟩], [⟨"q1", "s1", false, "Pick", ["a", "b"]⟩],
        [], []⟩ "s1" none none [⟨"q1", none, some ["z"]⟩] "r1" false false).1.answers
      = [⟨"r1", "q1", none, some ["z"]⟩] ∧
    ¬ ("z" ∈ (["a", "b"] : List String)) := by
  refine ⟨?_, ?_, by decide⟩ <;> with_unfolding_all decide

/-- C4 amended: submission enforces at write time that every answered
question belongs to the target survey — a submission containing a foreign
question id is rejected with the database unchanged and nothing created —
and on success every stored answer row's question belongs to the survey;
but selected option values are not checked against the question's defined
options (see the counterexample). -/
theorem c4_question_membership_enforced :
    (∀ (db : DB) (sid : String) (email name : Option String) (ans : List AnswerInput)
        (rid : String) (f1 f2 : Bool),
        (∃ a ∈ ans, a.question_id ∉
          (db.questions.filter (fun q => q.survey_id == sid)).map (fun q => q.id)) →
        (postResponse db sid email name ans rid f1 f2).1 = db ∧
        ∀ x, (postResponse db sid email name ans rid f1 f2).2 ≠ PostResult.created x) ∧
    (∀ (db : DB) (sid : String) (email name : Option String) (ans : List AnswerInput)
        (rid : String) (f1 f2 : Bool) (rid' : String),
        (postResponse db sid email name ans rid f1 f2).2 = PostResult.created rid' →
        ∀ row ∈ (postResponse db sid email name ans rid f1 f2).1.answers,
          row ∈ db.answers ∨ row.question_id ∈
            (db.questions.filter (fun q => q.survey_id == sid)).map (fun q => q.id)) := by
  constructor
  · intro db sid email name ans rid f1 f2 hbad
    have hany : ans.any (fun a =>
        !(((db.questions.filter (fun q => q.survey_id == sid)).map
          (fun q => q.id)).contains a.question_id)) = true := by
      rw [List.any_eq_true]
      obtain ⟨a, ha, hnotin⟩ := hbad
      exact ⟨a, ha, by simpa using hnotin⟩
    rcases postResponse_spec db sid email name ans rid f1 f2 with
      ⟨r, heq, hnc⟩ | ⟨_, hfalse, _⟩ | ⟨_, hfalse, _⟩
    · rw [heq]
      exact ⟨rfl, hnc⟩
    · rw [hany] at hfalse
      exact Bool.noConfusion hfalse
    · rw [hany] at hfalse
      exact Bool.noConfusion hfalse
  · intro db sid email name ans rid f1 f2 rid' hcreated row hrow
    rcases postResponse_spec db sid email name ans rid f1 f2 with
      ⟨r, heq, hnc⟩ | ⟨_, _, heq⟩ | ⟨_, hany, heq⟩
    · rw [heq] at hcreated
      exact absurd hcreated (hnc rid')
    · rw [heq] at hcreated
      exact nomatch hcreated
    · rw [heq] at hrow
      have hall := List.any_eq_false.mp hany
      simp only [List.mem_append] at hrow
      rcases hrow with h | h
      · exact Or.inl h
      · right
        rw [List.mem_map] at h
        obtain ⟨a, ha, hrow_eq⟩ := h
        have hmem' : ∃ x ∈ db.questions, x.survey_id = sid ∧ x.id = a.question_id := by
          simpa using hall a ha
        obtain ⟨qrow, hqmem, hsid, hid⟩ := hmem'
        rw [← hrow_eq]
        simp only [List.mem_map, List.mem_filter]
        exact ⟨qrow, ⟨hqmem, by simpa using hsid⟩, by simpa using hid⟩

/-- Witness for C4 amended: a submission answering a question id not in the
survey is rejected with the database unchanged. -/
theorem c4_question_membership_enforced_witness :
    (postResponse ⟨[⟨"s1", "published", "T"⟩], [⟨"q1", "s1", false, "Pick", ["a"]⟩],
        [], []⟩ "s1" none none [⟨"q9", none, none⟩] "r1" false false).1
      = ⟨[⟨"s1", "published", "T"⟩], [⟨"q1", "s1", false, "Pick", ["a"]⟩], [], []⟩ ∧
    (postResponse ⟨[⟨"s1", "published", "T"⟩], [⟨"q1", "s1", false, "Pick", ["a"]⟩],
        [], []⟩ "s1" none none [⟨"q9", none, none⟩] "r1" false false).2
      ≠ PostResult.created "r1" := by
  have h := c4_question_membership_enforced.1
    ⟨[⟨"s1", "published", "T"⟩], [⟨"q1", "s1", false, "Pick", ["a"]⟩], [], []⟩
    "s1" none none [⟨"q9", none, none⟩] "r1" false false
    ⟨⟨"q9", none, none⟩, by decide, by decide⟩
  exact ⟨h.1, h.2 "r1"⟩
